import Mathlib

/-!
Shallow embedding of the SMAC tuning harness in
src/src/main/python/smac_optimize.py (SMAC4HPO run, n_params = 5, trial count 20)
and src/src/python/smac_optimize.py (SMAC4BO run, n_params = 12, trial count 100),
together with theorems settling the specification claims about it.

Python floats are modelled by the rationals; a Configuration (a Python dict
from hyperparameter names to values) is modelled by an association list whose
entry order models dict insertion/iteration order and whose lookup returns the
first matching entry; fallible lookups return Except, mirroring KeyError.
-/

namespace SmacOptimize

/-- Name of the i-th hyperparameter: the Python f-string f"x{i}". -/
def xName (i : Nat) : String := "x" ++ toString i

/-- One hyperparameter as declared by
UniformFloatHyperparameter(f"x{i}", 0, 100, default_value=1). -/
structure ParameterSpec where
  name : String
  lowerBound : ℚ
  upperBound : ℚ
  defaultValue : ℚ
deriving DecidableEq, Repr

/-- Embedding of the list comprehension
[UniformFloatHyperparameter(f"x{i}", 0, 100, default_value=1) for i in range(0, n)]
that populates the ConfigurationSpace, for a general dimension count n
(the two scripts instantiate it at the literals 5 and 12).  Python range(0, n)
is empty for n less than or equal to 0, hence the Int.toNat. -/
def defineSpace (n : Int) : List ParameterSpec :=
  (List.range n.toNat).map (fun i => ⟨xName i, 0, 100, 1⟩)

/-- A Configuration handed to the callback: a finite map from names to values,
modelled as an association list (entry order models dict iteration order). -/
abbrev Config := List (String × ℚ)

/-- Python dict lookup x[key]: first matching entry, none models KeyError. -/
def lookupConfig : Config → String → Option ℚ
  | [], _ => none
  | (k, v) :: rest, key => if k = key then some v else lookupConfig rest key

/-- Left-to-right construction of the parameter vector over a list of indices;
the first missing key aborts with that key, mirroring the KeyError Python
raises at the first failing subscript of the comprehension. -/
def buildParamsAux (cfg : Config) : List Nat → Except String (List ℚ)
  | [] => Except.ok []
  | i :: rest =>
    match lookupConfig cfg (xName i) with
    | some v => (buildParamsAux cfg rest).map (fun ps => v :: ps)
    | none => Except.error (xName i)

/-- Embedding of params = [x[f"x{i}"] for i in range(0, n)] in fun_to_optimize. -/
def buildParams (cfg : Config) (n : Nat) : Except String (List ℚ) :=
  buildParamsAux cfg (List.range n)

/-- Embedding of fun_to_optimize: build the parameter vector, call the external
evaluator RunStrategy.runStrategyWithConfiguration (abstracted as the function
argument f, since its body lives in the external Scala jar) with the vector and
the trial count, and return the negated raw score.  A KeyError during vector
construction propagates and the evaluator is not consulted. -/
def fun_to_optimize (f : List ℚ → Nat → ℚ) (trials n : Nat) (cfg : Config) :
    Except String ℚ :=
  match buildParams cfg n with
  | Except.ok ps => Except.ok (-(f ps trials))
  | Except.error k => Except.error k

/-- The external evaluator invocations one callback run performs: exactly one
call with the fully built vector and the trial count when construction
succeeds, none when a key lookup fails. -/
def evalCalls (cfg : Config) (n trials : Nat) : List (List ℚ × Nat) :=
  match buildParams cfg n with
  | Except.ok ps => [(ps, trials)]
  | Except.error _ => []

/-- The keyword arguments of the Scenario constructed by each script. -/
structure ScenarioArgs where
  run_obj : String
  runcount_limit : Nat
  deterministic : String
deriving DecidableEq, Repr

/-- The fixed run profile a script hard-codes: dimension count, the trial count
passed to runStrategyWithConfiguration, the Scenario arguments, and the seed of
the np.random.RandomState handed to the SMAC facade. -/
structure RunScript where
  n_params : Nat
  trialCount : Nat
  scenario : ScenarioArgs
  rngSeed : Nat
deriving DecidableEq, Repr

/-- Profile of src/src/main/python/smac_optimize.py (SMAC4HPO). -/
def hpoScript : RunScript :=
  ⟨5, 20, ⟨"quality", 999999, "false"⟩, 42⟩

/-- Profile of src/src/python/smac_optimize.py (SMAC4BO). -/
def boScript : RunScript :=
  ⟨12, 100, ⟨"quality", 999999, "false"⟩, 42⟩

/-- Error raised when the evaluation budget is rejected at construction. -/
inductive BudgetError where
  | invalidBudgetError
deriving DecidableEq, Repr

/-- Modelled from the spec: the construction-time validation of the Budget and
Determinism Controller (evaluationBudget must be at least 1, otherwise
InvalidBudgetError) is performed inside the external optimizer library when the
Scenario object is constructed; that code is not under src/, only its call
sites are, so the validation rule is taken from the specification text. -/
def validateBudget (evaluationBudget : Int) : Except BudgetError Int :=
  if evaluationBudget < 1 then Except.error BudgetError.invalidBudgetError
  else Except.ok evaluationBudget

/-- One observable step of a script run, for the temporal claim about the
process-wide CLASSPATH environment value. -/
inductive Action where
  | envWrite (key val : String)
  | buildSpaceStep (n : Nat)
  | buildScenarioStep
  | buildOptimizerStep
  | bridgeEvalStep (i : Nat)
deriving DecidableEq, Repr

/-- Whether an action writes the environment key k. -/
def writesEnv (k : String) : Action → Bool
  | Action.envWrite key _ => key = k
  | _ => false

/-- The steps smac_opt performs, in source order: build the configuration
space, build the Scenario, construct the SMAC facade, then smac.optimize,
which invokes the callback some number c of times. -/
def smacOptTrace (n c : Nat) : List Action :=
  Action.buildSpaceStep n :: Action.buildScenarioStep ::
    Action.buildOptimizerStep :: (List.range c).map Action.bridgeEvalStep

/-- The whole module-level trace of either script: the top-level statement
os.environ assignment of CLASSPATH runs at import time, before the
main-guarded call to smac_opt. -/
def moduleTrace (n c : Nat) : List Action :=
  Action.envWrite ("CLASSPATH") ("../../target/scala-2.13/Tetris-assembly-0.1.jar")
    :: smacOptTrace n c

/-! Helper lemmas about configuration lookup and vector construction. -/

/-- Lookup in a Configuration with duplicate-free keys is invariant under any
reordering of its entries. -/
theorem lookupConfig_eq_of_perm (k : String) {l1 l2 : Config} (p : List.Perm l1 l2)
    (hn : (l1.map Prod.fst).Nodup) : lookupConfig l1 k = lookupConfig l2 k := by
  induction p with
  | nil => rfl
  | cons x p ih =>
    obtain ⟨a, b⟩ := x
    simp only [List.map_cons, List.nodup_cons] at hn
    simp only [lookupConfig]
    split
    · rfl
    · exact ih hn.2
  | swap x y l =>
    obtain ⟨a, b⟩ := x
    obtain ⟨c, d⟩ := y
    simp only [List.map_cons, List.nodup_cons, List.mem_cons] at hn
    have hca : c ≠ a := fun h => hn.1 (Or.inl h)
    simp only [lookupConfig]
    by_cases hc : c = k <;> by_cases ha : a = k <;> simp [hc, ha]
    exact absurd (hc.trans ha.symm) hca
  | trans p1 p2 ih1 ih2 =>
    have hn2 := (p1.map Prod.fst).nodup_iff.mp hn
    exact (ih1 hn).trans (ih2 hn2)

/-- When every requested index has a value in the Configuration, the vector
comes out in index order. -/
theorem buildParamsAux_ok_of_lookup (cfg : Config) (v : Nat → ℚ) :
    ∀ idxs : List Nat, (∀ i ∈ idxs, lookupConfig cfg (xName i) = some (v i)) →
      buildParamsAux cfg idxs = Except.ok (idxs.map v) := by
  intro idxs
  induction idxs with
  | nil => intro _; rfl
  | cons i rest ih =>
    intro h
    have hi := h i (List.mem_cons_self i rest)
    have hr := ih (fun j hj => h j (List.mem_cons_of_mem i hj))
    simp [buildParamsAux, hi, hr, Except.map]

/-- A missing key among the requested indices makes vector construction fail. -/
theorem buildParamsAux_error_of_missing (cfg : Config) :
    ∀ (idxs : List Nat) (j : Nat), j ∈ idxs → lookupConfig cfg (xName j) = none →
      ∃ k, buildParamsAux cfg idxs = Except.error k := by
  intro idxs
  induction idxs with
  | nil => intro j hj _; exact absurd hj (List.not_mem_nil j)
  | cons i rest ih =>
    intro j hj hmiss
    rcases List.mem_cons.mp hj with hji | hjr
    · subst hji
      exact ⟨xName j, by simp [buildParamsAux, hmiss]⟩
    · cases hlook : lookupConfig cfg (xName i) with
      | none => exact ⟨xName i, by simp [buildParamsAux, hlook]⟩
      | some v =>
        obtain ⟨k, hk⟩ := ih j hjr hmiss
        exact ⟨k, by simp [buildParamsAux, hlook, hk, Except.map]⟩

/-- Vector construction only consults the lookups at the requested indices. -/
theorem buildParamsAux_congr {cfg1 cfg2 : Config} :
    ∀ idxs : List Nat,
      (∀ i ∈ idxs, lookupConfig cfg1 (xName i) = lookupConfig cfg2 (xName i)) →
      buildParamsAux cfg1 idxs = buildParamsAux cfg2 idxs := by
  intro idxs
  induction idxs with
  | nil => intro _; rfl
  | cons i rest ih =>
    intro h
    have hi := h i (List.mem_cons_self i rest)
    have hr := ih (fun j hj => h j (List.mem_cons_of_mem i hj))
    simp only [buildParamsAux, hi, hr]

/-- Lookup in an appended Configuration falls back to the second part only when
the first part lacks the key. -/
theorem lookupConfig_append (l1 l2 : Config) (k : String) :
    lookupConfig (l1 ++ l2) k =
      match lookupConfig l1 k with
      | some v => some v
      | none => lookupConfig l2 k := by
  induction l1 with
  | nil => rfl
  | cons p rest ih =>
    obtain ⟨a, b⟩ := p
    simp only [List.cons_append, lookupConfig]
    split
    · rfl
    · exact ih

/-- Lookup misses when no entry carries the key. -/
theorem lookupConfig_eq_none (l : Config) (k : String) (h : ∀ p ∈ l, p.1 ≠ k) :
    lookupConfig l k = none := by
  induction l with
  | nil => rfl
  | cons p rest ih =>
    obtain ⟨a, b⟩ := p
    have ha : a ≠ k := h (a, b) (List.mem_cons_self _ _)
    simp only [lookupConfig, if_neg ha]
    exact ih (fun q hq => h q (List.mem_cons_of_mem _ hq))

/-! Claim theorems. -/

/-- C1: for a ParameterSpace of size n and a Configuration that assigns the
value v i to each declared name x0 .. x(n-1), fun_to_optimize builds the
parameter vector in ParameterSpace order, the value of x0 first, then x1, up to
x(n-1); moreover any reordering (permutation) of the entries of a
duplicate-free Configuration yields the same vector, so the vector does not
depend on the iteration order of the Configuration. -/
theorem c1_vector_in_space_order (n : Nat) (v : Nat → ℚ) (cfg : Config)
    (h : ∀ i, i < n → lookupConfig cfg (xName i) = some (v i)) :
    buildParams cfg n = Except.ok ((List.range n).map v) ∧
    ∀ cfg2 : Config, List.Perm cfg cfg2 → (cfg.map Prod.fst).Nodup →
      buildParams cfg2 n = Except.ok ((List.range n).map v) := by
  constructor
  · exact buildParamsAux_ok_of_lookup cfg v (List.range n)
      (fun i hi => h i (List.mem_range.mp hi))
  · intro cfg2 hp hn
    exact buildParamsAux_ok_of_lookup cfg2 v (List.range n) (fun i hi =>
      (lookupConfig_eq_of_perm (xName i) hp hn).symm.trans (h i (List.mem_range.mp hi)))

/-- Witness for C1 at the example of the spec: space x0 x1 x2 and the
Configuration with entries x1 to 5, x0 to 2, x2 to 9 yields the vector 2 5 9. -/
theorem c1_vector_in_space_order_witness :
    buildParams [(("x1" : String), (5 : ℚ)), ("x0", 2), ("x2", 9)] 3 =
      Except.ok ((List.range 3).map
        (fun i => if i = 0 then (2 : ℚ) else if i = 1 then 5 else 9)) :=
  (c1_vector_in_space_order 3
    (fun i => if i = 0 then (2 : ℚ) else if i = 1 then 5 else 9)
    [(("x1" : String), (5 : ℚ)), ("x0", 2), ("x2", 9)] (by decide)).1

/-- C2: whenever the parameter vector ps is successfully built from the
Configuration, the bridge returns exactly the negation of the raw score the
external evaluator returns for ps and the trial count. -/
theorem c2_negates_raw_score (f : List ℚ → Nat → ℚ) (trials n : Nat)
    (cfg : Config) (ps : List ℚ) (h : buildParams cfg n = Except.ok ps) :
    fun_to_optimize f trials n cfg = Except.ok (-(f ps trials)) := by
  unfold fun_to_optimize
  rw [h]

/-- Witness for C2: an evaluator returning the raw score 15/2 makes the bridge
return minus 15/2. -/
theorem c2_negates_raw_score_witness :
    fun_to_optimize (fun _ _ => (15 / 2 : ℚ)) 20 1 [(("x0" : String), (2 : ℚ))] =
      Except.ok (-(15 / 2 : ℚ)) := by
  have h := c2_negates_raw_score (fun _ _ => (15 / 2 : ℚ)) 20 1
    [(("x0" : String), (2 : ℚ))] [(2 : ℚ)] rfl
  simpa using h

/-- C3: for every n at least 1, the parameter space for n dimensions has
exactly n specifications, and the specification at index i is named x i with
lower bound 0, upper bound 100 and default value 1. -/
theorem c3_defineSpace_specs (n : Int) (h : 1 ≤ n) :
    ((defineSpace n).length : Int) = n ∧
    ∀ i : Nat, (i : Int) < n → (defineSpace n)[i]? = some ⟨xName i, 0, 100, 1⟩ := by
  constructor
  · simp only [defineSpace, List.length_map, List.length_range]
    omega
  · intro i hi
    have hi2 : i < n.toNat := by omega
    simp [defineSpace, List.getElem?_map, List.getElem?_range, hi2]

/-- Witness for C3 at n equal 2. -/
theorem c3_defineSpace_specs_witness :
    ((defineSpace 2).length : Int) = 2 ∧
    (defineSpace 2)[1]? = some ⟨xName 1, 0, 100, 1⟩ :=
  ⟨(c3_defineSpace_specs 2 (by decide)).1,
   (c3_defineSpace_specs 2 (by decide)).2 1 (by decide)⟩

/-- C4 counterexample: a Configuration carrying the extra undeclared key y in
addition to the declared name x0 is accepted by the bridge, which returns a
score instead of failing with UnexpectedParameterError. -/
theorem c4_counterexample :
    fun_to_optimize (fun _ _ => 7) 20 1
      [(("x0" : String), (2 : ℚ)), ("y", 3)] = Except.ok (-7) := rfl

/-- C4 amended: a Configuration missing a declared name makes the bridge fail
with a key-lookup error before any evaluation, but a Configuration with extra
undeclared keys is accepted unchanged: the extra keys are ignored and no
UnexpectedParameterError exists in the code. -/
theorem c4_amended_key_errors :
    (∀ (f : List ℚ → Nat → ℚ) (trials n j : Nat) (cfg : Config), j < n →
        lookupConfig cfg (xName j) = none →
        ∃ k, fun_to_optimize f trials n cfg = Except.error k) ∧
    (∀ (f : List ℚ → Nat → ℚ) (trials n : Nat) (cfg extra : Config),
        (∀ p ∈ extra, ∀ i, i < n → p.1 ≠ xName i) →
        fun_to_optimize f trials n (cfg ++ extra) = fun_to_optimize f trials n cfg) := by
  constructor
  · intro f trials n j cfg hj hmiss
    obtain ⟨k, hk⟩ := buildParamsAux_error_of_missing cfg (List.range n) j
      (List.mem_range.mpr hj) hmiss
    exact ⟨k, by unfold fun_to_optimize buildParams; rw [hk]⟩
  · intro f trials n cfg extra hextra
    have hb : buildParams (cfg ++ extra) n = buildParams cfg n := by
      apply buildParamsAux_congr (List.range n)
      intro i hi
      rw [lookupConfig_append]
      cases hc : lookupConfig cfg (xName i) with
      | some v => rfl
      | none =>
        simp only []
        exact lookupConfig_eq_none extra (xName i)
          (fun p hp => hextra p hp i (List.mem_range.mp hi))
    unfold fun_to_optimize
    rw [hb]

/-- Witness for C4 amended: a Configuration lacking x1 in a space of size 2
fails, and appending the undeclared key y to a complete Configuration leaves
the result unchanged. -/
theorem c4_amended_key_errors_witness :
    (∃ k, fun_to_optimize (fun _ _ => 7) 20 2
        [(("x0" : String), (1 : ℚ))] = Except.error k) ∧
    fun_to_optimize (fun _ _ => 7) 20 1
        ([(("x0" : String), (2 : ℚ))] ++ [(("y" : String), (3 : ℚ))]) =
      fun_to_optimize (fun _ _ => 7) 20 1 [(("x0" : String), (2 : ℚ))] :=
  ⟨c4_amended_key_errors.1 (fun _ _ => 7) 20 2 1
      [(("x0" : String), (1 : ℚ))] (by decide) (by decide),
   c4_amended_key_errors.2 (fun _ _ => 7) 20 1
      [(("x0" : String), (2 : ℚ))] [(("y" : String), (3 : ℚ))] (by decide)⟩

/-- C5: both scripts fix rngSeed 42, evaluation budget 999999 and the
deterministic flag false; the SMAC4HPO script uses 5 dimensions with trial
count 20 and the SMAC4BO script uses 12 dimensions with trial count 100, and
every external evaluator call of a callback run carries that trial count. -/
theorem c5_run_profiles :
    hpoScript.n_params = 5 ∧ hpoScript.trialCount = 20 ∧
    boScript.n_params = 12 ∧ boScript.trialCount = 100 ∧
    hpoScript.rngSeed = 42 ∧ boScript.rngSeed = 42 ∧
    hpoScript.scenario.runcount_limit = 999999 ∧
    boScript.scenario.runcount_limit = 999999 ∧
    hpoScript.scenario.deterministic = "false" ∧
    boScript.scenario.deterministic = "false" ∧
    (∀ cfg : Config, (evalCalls cfg hpoScript.n_params hpoScript.trialCount).all
      (fun c => c.2 == 20) = true) ∧
    (∀ cfg : Config, (evalCalls cfg boScript.n_params boScript.trialCount).all
      (fun c => c.2 == 100) = true) := by
  refine ⟨rfl, rfl, rfl, rfl, rfl, rfl, rfl, rfl, rfl, rfl, ?_, ?_⟩
  · intro cfg
    simp only [hpoScript]
    cases h : buildParams cfg 5 <;> simp [evalCalls, h]
  · intro cfg
    simp only [boScript]
    cases h : buildParams cfg 12 <;> simp [evalCalls, h]

/-- C6: the construction-time validation of the evaluation budget rejects any
budget below 1 with InvalidBudgetError and accepts the budget 999999 used by
both scripts. -/
theorem c6_budget_validated (b : Int) (h : b < 1) :
    validateBudget b = Except.error BudgetError.invalidBudgetError ∧
    validateBudget 999999 = Except.ok 999999 := by
  constructor
  · simp [validateBudget, h]
  · rfl

/-- Witness for C6 at budget 0. -/
theorem c6_budget_validated_witness :
    validateBudget 0 = Except.error BudgetError.invalidBudgetError ∧
    validateBudget 999999 = Except.ok 999999 :=
  c6_budget_validated 0 (by decide)

/-- C7 counterexample: building the parameter space for n equal 0 or a
negative n does not fail with InvalidSpecError; the comprehension simply
yields the empty space. -/
theorem c7_counterexample : defineSpace 0 = [] ∧ defineSpace (-3) = [] :=
  ⟨rfl, rfl⟩

/-- C7 amended: building the parameter space never fails: every produced
specification has its lower bound at most its upper bound (the bounds are the
constants 0 and 100), and for n at most 0 the comprehension returns the empty
space instead of raising InvalidSpecError. -/
theorem c7_amended_no_failure (n : Int) :
    (defineSpace n).all
      (fun s => decide (s.lowerBound ≤ s.upperBound)) = true ∧
    (n ≤ 0 → defineSpace n = []) := by
  constructor
  · simp only [defineSpace, List.all_eq_true, List.mem_map, List.mem_range]
    rintro x ⟨i, _, rfl⟩
    norm_num
  · intro h
    simp [defineSpace, Int.toNat_of_nonpos h]

/-- Witness for C7 amended at n equal minus 1. -/
theorem c7_amended_no_failure_witness :
    (defineSpace (-1)).all
      (fun s => decide (s.lowerBound ≤ s.upperBound)) = true ∧
    defineSpace (-1) = [] :=
  ⟨(c7_amended_no_failure (-1)).1, (c7_amended_no_failure (-1)).2 (by decide)⟩

/-- C8: in the module-level trace of either script, for any dimension count
and any number of callback invocations, the very first action is the single
assignment of the CLASSPATH environment value, and the whole trace contains
exactly one write to CLASSPATH, so no later operation mutates it. -/
theorem c8_classpath_written_once_first (n c : Nat) :
    (moduleTrace n c).head? = some (Action.envWrite ("CLASSPATH")
      ("../../target/scala-2.13/Tetris-assembly-0.1.jar")) ∧
    (moduleTrace n c).countP (writesEnv ("CLASSPATH")) = 1 := by
  constructor
  · rfl
  · have hz : ((List.range c).map Action.bridgeEvalStep).countP
        (writesEnv ("CLASSPATH")) = 0 := by
      apply List.countP_eq_zero.mpr
      intro a ha
      obtain ⟨i, _, rfl⟩ := List.mem_map.mp ha
      simp [writesEnv]
    simp [moduleTrace, smacOptTrace, List.countP_cons, writesEnv, hz]

/-- C9: two Configurations that agree on the values of all declared names
x0 .. x(n-1) produce the same parameter vector, the same external evaluator
call, and the same bridge result, whatever extra keys either carries. -/
theorem c9_extra_keys_no_influence (f : List ℚ → Nat → ℚ) (n trials : Nat)
    (cfg1 cfg2 : Config)
    (h : ∀ i, i < n → lookupConfig cfg1 (xName i) = lookupConfig cfg2 (xName i)) :
    buildParams cfg1 n = buildParams cfg2 n ∧
    evalCalls cfg1 n trials = evalCalls cfg2 n trials ∧
    fun_to_optimize f trials n cfg1 = fun_to_optimize f trials n cfg2 := by
  have hb : buildParams cfg1 n = buildParams cfg2 n :=
    buildParamsAux_congr (List.range n) (fun i hi => h i (List.mem_range.mp hi))
  refine ⟨hb, ?_, ?_⟩
  · unfold evalCalls
    rw [hb]
  · unfold fun_to_optimize
    rw [hb]

/-- Witness for C9: a Configuration with the extra key junk behaves exactly
like the Configuration without it. -/
theorem c9_extra_keys_no_influence_witness :
    buildParams [(("x0" : String), (3 : ℚ)), ("junk", 9)] 1 =
      buildParams [(("x0" : String), (3 : ℚ))] 1 ∧
    evalCalls [(("x0" : String), (3 : ℚ)), ("junk", 9)] 1 20 =
      evalCalls [(("x0" : String), (3 : ℚ))] 1 20 ∧
    fun_to_optimize (fun _ _ => 0) 20 1 [(("x0" : String), (3 : ℚ)), ("junk", 9)] =
      fun_to_optimize (fun _ _ => 0) 20 1 [(("x0" : String), (3 : ℚ))] :=
  c9_extra_keys_no_influence (fun _ _ => 0) 1 20
    [(("x0" : String), (3 : ℚ)), ("junk", 9)]
    [(("x0" : String), (3 : ℚ))] (by decide)

/-- C10: when the Configuration lacks the key x j for some j below n, the
bridge fails with a key-lookup error during vector construction and the
external evaluator is never invoked: the call list of that run is empty. -/
theorem c10_missing_key_no_eval (f : List ℚ → Nat → ℚ) (trials n j : Nat)
    (cfg : Config) (hj : j < n) (hmiss : lookupConfig cfg (xName j) = none) :
    (∃ k, fun_to_optimize f trials n cfg = Except.error k) ∧
    evalCalls cfg n trials = [] := by
  obtain ⟨k, hk⟩ := buildParamsAux_error_of_missing cfg (List.range n) j
    (List.mem_range.mpr hj) hmiss
  constructor
  · exact ⟨k, by unfold fun_to_optimize buildParams; rw [hk]⟩
  · unfold evalCalls buildParams
    rw [hk]

/-- Witness for C10: a Configuration holding only x0 in a space of size 2
fails and triggers no evaluator call. -/
theorem c10_missing_key_no_eval_witness :
    (∃ k, fun_to_optimize (fun _ _ => 0) 20 2
        [(("x0" : String), (1 : ℚ))] = Except.error k) ∧
    evalCalls [(("x0" : String), (1 : ℚ))] 2 20 = [] :=
  c10_missing_key_no_eval (fun _ _ => 0) 20 2 1
    [(("x0" : String), (1 : ℚ))] (by decide) (by decide)

end SmacOptimize
